import Mathlib

/-!
Verification of the cart pricing and pack/unit reconciliation logic of a
pharmacy point-of-sale frontend.  Each definition is a shallow embedding of
one function of the source (`src/lib/data-utils.ts` and the cashier /
manager components); monetary amounts and unit counts are JavaScript
numbers used as integers, modelled as `Int`.
-/

/-- A pack variant of a product (`PackVariant` in `api-unified`):
`packSize` units per pack, bought at `packPrice`; `unitPrice` is the
effective per-unit price when bought as this pack. -/
structure PackVariant where
  id : String
  variantName : Option String := none
  packSize : Int
  packPrice : Int
  unitPrice : Int
  isActive : Bool
deriving DecidableEq

/-- One entry of the pack breakdown computed by `calculatePackInventory`. -/
structure PackBreakdownEntry where
  variant : PackVariant
  availablePacks : Int
deriving DecidableEq

/-- The record returned by `calculatePackInventory`. -/
structure PackInventoryResult where
  packBreakdown : List PackBreakdownEntry
  looseUnits : Int
  totalValue : Int
deriving DecidableEq

/-- Stable insertion of a variant into a list sorted by `packSize`
descending; models the comparator `(a, b) => b.packSize - a.packSize` of
`[...packVariants].sort(...)` (JavaScript sort is stable, so an element
goes in front of later elements with an equal key). -/
def insertByPackSizeDesc (v : PackVariant) : List PackVariant → List PackVariant
  | [] => [v]
  | w :: ws =>
    if w.packSize ≤ v.packSize then v :: w :: ws
    else w :: insertByPackSizeDesc v ws

/-- Sorting step of `calculatePackInventory` (`data-utils.ts:190`). -/
def sortByPackSizeDesc (l : List PackVariant) : List PackVariant :=
  l.foldr insertByPackSizeDesc []

/-- State threaded through the `for (const variant of sortedVariants)` loop
of `calculatePackInventory`: the breakdown entries pushed so far, the
remaining units, and the value accumulated from whole packs. -/
structure PackLoopResult where
  packBreakdown : List PackBreakdownEntry
  remainingUnits : Int
  packsValue : Int
deriving DecidableEq

/-- The loop of `calculatePackInventory` (`data-utils.ts:196`..`206`):
inactive variants are skipped; for an active variant,
`availablePacks = Math.floor(remainingUnits / packSize)` and, when positive,
the entry is recorded, the used units are subtracted and the pack value
added.  `Math.floor` of the quotient is `Int.fdiv`. -/
def packLoop : List PackVariant → Int → PackLoopResult
  | [], remainingUnits => ⟨[], remainingUnits, 0⟩
  | v :: vs, remainingUnits =>
    if v.isActive then
      let availablePacks := Int.fdiv remainingUnits v.packSize
      if 0 < availablePacks then
        let rest := packLoop vs (remainingUnits - availablePacks * v.packSize)
        ⟨⟨v, availablePacks⟩ :: rest.packBreakdown, rest.remainingUnits,
          availablePacks * v.packPrice + rest.packsValue⟩
      else packLoop vs remainingUnits
    else packLoop vs remainingUnits

/-- The per-unit price used for the loose units
(`data-utils.ts:209`): `sortedVariants[0]?.unitPrice || 0`, i.e. the
`unitPrice` of the FIRST variant of the size-descending sort (the largest
pack, active or not), or `0` when there are no variants at all. -/
def looseUnitPrice (sortedVariants : List PackVariant) : Int :=
  match sortedVariants with
  | [] => 0
  | v :: _ => v.unitPrice

/-- `dataTransforms.calculatePackInventory` (`data-utils.ts:184`..`216`). -/
def calculatePackInventory (totalUnits : Int) (packVariants : List PackVariant) :
    PackInventoryResult :=
  let sortedVariants := sortByPackSizeDesc packVariants
  let pass := packLoop sortedVariants totalUnits
  { packBreakdown := pass.packBreakdown
    looseUnits := pass.remainingUnits
    totalValue := pass.packsValue + pass.remainingUnits * looseUnitPrice sortedVariants }

/-- Units covered by a breakdown: `Σ packCount × packSize`. -/
def breakdownUnits (entries : List PackBreakdownEntry) : Int :=
  (entries.map (fun e => e.availablePacks * e.variant.packSize)).sum

/-- Sample variant of the spec scenario: a 3-pack priced 27 whose own
effective unit price is 9 (27 / 3). -/
def threePackNine : PackVariant :=
  { id := "v3", packSize := 3, packPrice := 27, unitPrice := 9, isActive := true }

/-- A 3-pack priced 27 with an arbitrary effective unit price. -/
def threePackAt (u : Int) : PackVariant :=
  { id := "v3", packSize := 3, packPrice := 27, unitPrice := u, isActive := true }

/-- A 5-pack whose effective unit price is `u`. -/
def fivePackAt (u : Int) : PackVariant :=
  { id := "v5", packSize := 5, packPrice := 40, unitPrice := u, isActive := true }

/-- A 2-pack whose effective unit price is `u`. -/
def twoPackAt (u : Int) : PackVariant :=
  { id := "v2", packSize := 2, packPrice := 15, unitPrice := u, isActive := true }

lemma packLoop_units (vs : List PackVariant) (r : Int) :
    breakdownUnits (packLoop vs r).packBreakdown + (packLoop vs r).remainingUnits = r := by
  induction vs generalizing r with
  | nil => simp [packLoop, breakdownUnits]
  | cons v vs ih =>
    simp only [packLoop]
    split
    · split
      · have h := ih (r - Int.fdiv r v.packSize * v.packSize)
        simp only [breakdownUnits, List.map_cons, List.sum_cons] at h ⊢
        linarith
      · exact ih r
    · exact ih r

/-- C1: for every integer `totalUnits ≥ 0` and every list of pack variants
with `packSize ≥ 1`, the decomposition returned by `calculatePackInventory`
conserves units: the sum over the breakdown of `packCount × packSize`, plus
`looseUnits`, equals `totalUnits`. -/
theorem calculatePackInventory_conservation (totalUnits : Int)
    (packVariants : List PackVariant) (hU : 0 ≤ totalUnits)
    (hP : ∀ v ∈ packVariants, 1 ≤ v.packSize) :
    breakdownUnits (calculatePackInventory totalUnits packVariants).packBreakdown
      + (calculatePackInventory totalUnits packVariants).looseUnits = totalUnits := by
  unfold calculatePackInventory
  exact packLoop_units (sortByPackSizeDesc packVariants) totalUnits

/-- C1 witness: the conservation equation instantiated at `totalUnits = 10`
with the single active 3-pack variant. -/
theorem calculatePackInventory_conservation_witness :
    breakdownUnits (calculatePackInventory 10 [threePackNine]).packBreakdown
      + (calculatePackInventory 10 [threePackNine]).looseUnits = 10 :=
  calculatePackInventory_conservation 10 [threePackNine] (by decide)
    (by intro v hv; simp only [List.mem_singleton] at hv; subst hv; decide)

/-- C2 counterexample: in the spec scenario (product with one active 3-pack
variant of size 3 and pack price 27, atomic unit price 10, `totalUnits = 10`)
the code does NOT value the loose unit at the product's atomic unit price:
`calculatePackInventory` never receives the product at all and prices loose
units at `sortedVariants[0].unitPrice`.  With the 3-pack's own effective
unit price of 9 (= 27 / 3) the result is `totalValue = 90`, not the claimed
91; and with two variants the loose price is the LARGEST variant's
`unitPrice`, not the smallest's. -/
theorem calculatePackInventory_loose_price_counterexample :
    calculatePackInventory 10 [threePackNine]
        = { packBreakdown := [⟨threePackNine, 3⟩], looseUnits := 1, totalValue := 90 }
      ∧ (90 : Int) ≠ 91
      ∧ (calculatePackInventory 1 [fivePackAt 7, twoPackAt 3]).totalValue = 7
      ∧ (7 : Int) ≠ 3 := by
  refine ⟨by decide, by decide, by decide, by decide⟩

/-- C2 amended: after the greedy pass the loose units are valued at the
`unitPrice` of the first variant of the size-descending sort — the largest
pack variant — or 0 when the variant list is empty; the product's atomic
unit price is not an input and no smallest-variant fallback exists.  In the
spec scenario the breakdown is 3 packs and 1 loose unit as claimed, but
`totalValue = 81 + u` where `u` is the 3-pack's own `unitPrice` (90 at
`u = 9`), and with a 5-pack and a 2-pack present a loose unit is valued at
the 5-pack's `unitPrice`. -/
theorem calculatePackInventory_loose_price_amended (u a b : Int) :
    calculatePackInventory 10 [threePackAt u]
        = { packBreakdown := [⟨threePackAt u, 3⟩], looseUnits := 1, totalValue := 81 + u }
      ∧ (calculatePackInventory 1 [fivePackAt a, twoPackAt b]).totalValue = a := by
  constructor
  · simp [calculatePackInventory, sortByPackSizeDesc, insertByPackSizeDesc,
      packLoop, looseUnitPrice, threePackAt, breakdownUnits]
  · simp [calculatePackInventory, sortByPackSizeDesc, insertByPackSizeDesc,
      packLoop, looseUnitPrice, fivePackAt, twoPackAt]

/-- A cart line of the cashier page (`CartItem` in `app/cashier/page`):
`quantity` is the number of units (or of packs, for a line entered at a
pack price); optional fields model the TypeScript optionals. -/
structure CartItem where
  id : String
  itemName : String := ""
  price : Int
  quantity : Int
  unit : String := ""
  stock : Option Int := none
  category : Option String := none
  batchNumber : Option String := none
  expiryDate : Option String := none
  discount : Option Int := none
deriving DecidableEq

/-- The product argument of `addToCart` (`Omit<CartItem, "quantity">`). -/
structure CartProduct where
  id : String
  itemName : String := ""
  price : Int
  unit : String := ""
  stock : Option Int := none
  category : Option String := none
  batchNumber : Option String := none
  expiryDate : Option String := none
  discount : Option Int := none
deriving DecidableEq

/-- The spread `{ ...product, quantity }` building a cart line. -/
def cartItemOf (product : CartProduct) (quantity : Int) : CartItem :=
  { id := product.id, itemName := product.itemName, price := product.price
    quantity := quantity, unit := product.unit, stock := product.stock
    category := product.category, batchNumber := product.batchNumber
    expiryDate := product.expiryDate, discount := product.discount }

/-- `addToCart` of `CashierContent`: if a line with the product's id exists,
every matching line's `quantity` is incremented by 1; otherwise the product
is appended as a new line with `quantity = 1`.  No stock is consulted. -/
def addToCart (product : CartProduct) (prev : List CartItem) : List CartItem :=
  match prev.find? (fun item => item.id == product.id) with
  | some _ =>
      prev.map (fun item =>
        if item.id = product.id then { item with quantity := item.quantity + 1 } else item)
  | none => prev ++ [cartItemOf product 1]

/-- `updateQuantity` of `CashierContent` (and, identically, of
`MobileCashierPage`): non-positive quantity removes the line, otherwise the
matching line's quantity is replaced. -/
def updateQuantity (id : String) (quantity : Int) (items : List CartItem) : List CartItem :=
  if quantity ≤ 0 then items.filter (fun item => item.id != id)
  else items.map (fun item =>
    if item.id = id then { item with quantity := quantity } else item)

/-- `clearCart` of `CashierContent`: the cart becomes empty. -/
def clearCart : List CartItem := []

/-- `subtotal` of `CashierContent`:
`cartItems.reduce((sum, item) => sum + item.price * item.quantity, 0)`. -/
def cashierSubtotal (cartItems : List CartItem) : Int :=
  cartItems.foldl (fun sum item => sum + item.price * item.quantity) 0

/-- `totalDiscount` of `CashierContent`:
`cartItems.reduce((sum, item) => sum + (item.discount || 0) * item.quantity, 0)`. -/
def cashierTotalDiscount (cartItems : List CartItem) : Int :=
  cartItems.foldl (fun sum item => sum + item.discount.getD 0 * item.quantity) 0

/-- `total` of `CashierContent`: `subtotal - totalDiscount`, with no guard
of any kind. -/
def cashierTotal (cartItems : List CartItem) : Int :=
  cashierSubtotal cartItems - cashierTotalDiscount cartItems

/-- Line A of the spec's example cart: unit sale, qty 3, unit price 10,
per-unit discount 1. -/
def exampleLineA : CartItem :=
  { id := "a", itemName := "productA", price := 10, quantity := 3, unit := "tablet"
    discount := some 1 }

/-- Line B of the spec's example cart: pack sale entered at the pack price,
2 packs of 5 at pack price 45 — stored as one line with price 45, qty 2. -/
def exampleLineB : CartItem :=
  { id := "b", itemName := "productB", price := 45, quantity := 2, unit := "pack" }

/-- The spec's example cart. -/
def exampleCart : List CartItem := [exampleLineA, exampleLineB]

/-- A malformed line whose per-unit discount (20) exceeds its unit price
(10). -/
def overDiscountLine : CartItem :=
  { id := "p1", itemName := "Paracetamol", price := 10, quantity := 1, unit := "tablet"
    discount := some 20 }

lemma foldl_add_map (f : CartItem → Int) (items : List CartItem) (init : Int) :
    items.foldl (fun sum item => sum + f item) init = init + (items.map f).sum := by
  induction items generalizing init with
  | nil => simp
  | cons item items ih => simp [ih]; ring

lemma cashierSubtotal_eq_sum (items : List CartItem) :
    cashierSubtotal items = (items.map (fun i => i.price * i.quantity)).sum := by
  simpa using foldl_add_map (fun i => i.price * i.quantity) items 0

lemma cashierTotalDiscount_eq_sum (items : List CartItem) :
    cashierTotalDiscount items = (items.map (fun i => i.discount.getD 0 * i.quantity)).sum := by
  simpa using foldl_add_map (fun i => i.discount.getD 0 * i.quantity) items 0

lemma cashierTotal_eq_sum (items : List CartItem) :
    cashierTotal items = (items.map (fun i => (i.price - i.discount.getD 0) * i.quantity)).sum := by
  unfold cashierTotal
  rw [cashierSubtotal_eq_sum, cashierTotalDiscount_eq_sum]
  induction items with
  | nil => simp
  | cons item items ih => simp only [List.map_cons, List.sum_cons] at ih ⊢; ring_nf; ring_nf at ih; linarith

/-- C3: the cashier totals are the claimed folds — `subtotal` is the sum of
`unitPrice × quantity` over the lines, `totalDiscount` the sum of
`discount × quantity`, `total = subtotal − totalDiscount` — and on the
example cart (unit line qty 3 × 10, discount 1; pack line 2 × 45) they are
120, 3 and 117. -/
theorem cashier_totals_spec (items : List CartItem) :
    cashierSubtotal items = (items.map (fun i => i.price * i.quantity)).sum
    ∧ cashierTotalDiscount items = (items.map (fun i => i.discount.getD 0 * i.quantity)).sum
    ∧ cashierTotal items = cashierSubtotal items - cashierTotalDiscount items
    ∧ cashierSubtotal exampleCart = 120
    ∧ cashierTotalDiscount exampleCart = 3
    ∧ cashierTotal exampleCart = 117 := by
  refine ⟨cashierSubtotal_eq_sum items, cashierTotalDiscount_eq_sum items, rfl,
    by decide, by decide, by decide⟩

/-- C4 counterexample: `CashierContent` computes
`total = subtotal - totalDiscount` with no clamping anywhere, so a single
line with unit price 10, quantity 1 and per-unit discount 20 yields
`grandTotal = -10 < 0`, contradicting the claimed non-negativity. -/
theorem cashierTotal_negative_counterexample :
    cashierTotal [overDiscountLine] = -10 ∧ ¬ (0 ≤ cashierTotal [overDiscountLine]) := by
  refine ⟨by decide, by decide⟩

/-- C4 amended: the code has no discount clamp, so `grandTotal ≥ 0` holds
only for well-formed carts — every line with non-negative quantity and
price and with its per-unit discount at most its unit price; a line whose
discount exceeds its price drives the total negative (see the
counterexample). -/
theorem cashierTotal_nonneg_of_wellformed (items : List CartItem)
    (h : ∀ i ∈ items, 0 ≤ i.quantity ∧ 0 ≤ i.price ∧ i.discount.getD 0 ≤ i.price) :
    0 ≤ cashierTotal items := by
  rw [cashierTotal_eq_sum]
  apply List.sum_nonneg
  intro x hx
  obtain ⟨i, hi, rfl⟩ := List.mem_map.mp hx
  obtain ⟨hq, hp, hd⟩ := h i hi
  have : 0 ≤ i.price - i.discount.getD 0 := by linarith
  positivity

/-- C4 amended witness: the example cart is well-formed and its total 117
is non-negative. -/
theorem cashierTotal_nonneg_of_wellformed_witness : 0 ≤ cashierTotal exampleCart :=
  cashierTotal_nonneg_of_wellformed exampleCart (by decide)

/-- The product of the C5 scenario: last-known stock 1. -/
def paracetamol : CartProduct :=
  { id := "p1", itemName := "Paracetamol", price := 10, unit := "tablet", stock := some 1 }

/-- A cart already holding one unit of that product. -/
def cartAtStockLimit : List CartItem := [cartItemOf paracetamol 1]

/-- C5 counterexample: `addToCart` performs no stock check whatsoever.
Adding the product whose last-known `stock` is 1 to a cart that already
holds 1 unit of it increments the line to quantity 2 — exceeding the
stock — instead of failing with `InsufficientStock` and leaving the cart
unchanged. -/
theorem addToCart_no_insufficient_stock_counterexample :
    addToCart paracetamol cartAtStockLimit = [cartItemOf paracetamol 2]
    ∧ addToCart paracetamol cartAtStockLimit ≠ cartAtStockLimit
    ∧ paracetamol.stock.getD 0 < (cartItemOf paracetamol 2).quantity := by
  refine ⟨by decide, by decide, by decide⟩

/-- C5 amended: `addToCart` can never fail and consults no stock: whenever
a line with the product's id exists, every matching line's quantity is
incremented by 1 unconditionally (regardless of any stock bound) and all
other lines are untouched; the only stock gating in the flow is the UI
disabling the add button when the displayed stock is 0. -/
theorem addToCart_increments_unconditionally (product : CartProduct)
    (prev : List CartItem)
    (h : (prev.find? (fun item => item.id == product.id)).isSome = true) :
    List.Forall₂ (fun old new =>
      (old.id = product.id → new = { old with quantity := old.quantity + 1 })
      ∧ (old.id ≠ product.id → new = old)) prev (addToCart product prev) := by
  unfold addToCart
  obtain ⟨x, hx⟩ := Option.isSome_iff_exists.mp h
  rw [hx]
  rw [List.forall₂_map_right_iff, List.forall₂_same]
  intro item hmem
  constructor
  · intro hid; simp [hid]
  · intro hid; simp [hid]

/-- C5 amended witness: the increment theorem at the stock-limit cart. -/
theorem addToCart_increments_unconditionally_witness :
    List.Forall₂ (fun old new =>
      (old.id = paracetamol.id → new = { old with quantity := old.quantity + 1 })
      ∧ (old.id ≠ paracetamol.id → new = old))
      cartAtStockLimit (addToCart paracetamol cartAtStockLimit) :=
  addToCart_increments_unconditionally paracetamol cartAtStockLimit (by decide)

/-- A two-line sample cart for the frame witness. -/
def sampleCart : List CartItem :=
  [ { id := "p1", itemName := "Paracetamol", price := 10, quantity := 1, unit := "tablet"
      discount := some 1 },
    { id := "p2", itemName := "Ibuprofen", price := 20, quantity := 4, unit := "tablet" } ]

/-- C10: for `q > 0`, `updateQuantity id q` is a pure frame update — the
carts before and after correspond line by line (so length and relative
order are preserved): a line whose id differs is returned unchanged in
every field, a line whose id matches is changed only in its `quantity`
field (all other fields kept by the record update), and a cart with no
matching id is returned unchanged. -/
theorem updateQuantity_frame (id : String) (q : Int) (items : List CartItem)
    (hq : 0 < q) :
    List.Forall₂ (fun old new =>
      (old.id = id → new = { old with quantity := q })
      ∧ (old.id ≠ id → new = old)) items (updateQuantity id q items)
    ∧ ((∀ item ∈ items, item.id ≠ id) → updateQuantity id q items = items) := by
  have hq' : ¬ q ≤ 0 := not_le.mpr hq
  constructor
  · unfold updateQuantity
    rw [if_neg hq']
    rw [List.forall₂_map_right_iff, List.forall₂_same]
    intro item hmem
    constructor
    · intro hid; simp [hid]
    · intro hid; simp [hid]
  · intro hnone
    unfold updateQuantity
    rw [if_neg hq']
    have : ∀ item ∈ items,
        (if item.id = id then { item with quantity := q } else item) = item := by
      intro item hmem
      rw [if_neg (hnone item hmem)]
    calc items.map (fun item => if item.id = id then { item with quantity := q } else item)
        = items.map (fun item => item) := List.map_congr_left this
      _ = items := List.map_id' items

/-- C10 witness: the frame property of `updateQuantity` at the two-line
sample cart with id `"p1"` and new quantity 5. -/
theorem updateQuantity_frame_witness :
    List.Forall₂ (fun old new =>
      (old.id = "p1" → new = { old with quantity := (5 : Int) })
      ∧ (old.id ≠ "p1" → new = old)) sampleCart (updateQuantity "p1" 5 sampleCart) :=
  (updateQuantity_frame "p1" 5 sampleCart (by decide)).1

/-- JavaScript `String.prototype.trim()`: the string without its leading
and trailing whitespace, written over the character list so that concrete
instances evaluate. -/
def jsTrim (s : String) : String :=
  String.mk (((s.data.dropWhile Char.isWhitespace).reverse.dropWhile
    Char.isWhitespace).reverse)

/-- The payment methods of `PaymentProcessingMobile`. -/
inductive PaymentMethod
  | cash
  | card
  | mobile
  | mixed
deriving DecidableEq

/-- `mixedTotalPaid` (`payment-processing-mobile.tsx:57`): card + mobile
amounts, plus the cash amount only when the method is `mixed`.  The parsed
`Number.parseFloat(x) || 0` amounts are modelled directly as integers. -/
def mixedTotalPaid (paymentMethod : PaymentMethod)
    (cashReceived cardAmount mobileAmount : Int) : Int :=
  cardAmount + mobileAmount +
    (if paymentMethod = PaymentMethod.mixed then cashReceived else 0)

/-- `mixedShortfall` (`payment-processing-mobile.tsx:58`):
`Math.max(0, total - mixedTotalPaid)` for the mixed method, else 0. -/
def mixedShortfall (paymentMethod : PaymentMethod)
    (total cashReceived cardAmount mobileAmount : Int) : Int :=
  if paymentMethod = PaymentMethod.mixed then
    max 0 (total - mixedTotalPaid paymentMethod cashReceived cardAmount mobileAmount)
  else 0

/-- `isPaymentValid` (`payment-processing-mobile.tsx:60`..`73`). -/
def isPaymentValid (paymentMethod : PaymentMethod)
    (cashReceived cardAmount mobileAmount : Int) (mobileNumber : String)
    (total : Int) : Bool :=
  match paymentMethod with
  | .cash => decide (total ≤ cashReceived)
  | .card => true
  | .mobile => decide (jsTrim mobileNumber ≠ "")
  | .mixed =>
      decide (mixedShortfall .mixed total cashReceived cardAmount mobileAmount = 0)

/-- C6: for the `mixed` payment method, validation succeeds iff the cash,
card and mobile sub-amounts sum to at least the grand total; in particular
cash 50 + card 30 + mobile 0 against a total of 100 is rejected. -/
theorem isPaymentValid_mixed_iff (cashReceived cardAmount mobileAmount : Int)
    (mobileNumber : String) (total : Int) :
    (isPaymentValid .mixed cashReceived cardAmount mobileAmount mobileNumber total = true
      ↔ total ≤ cashReceived + cardAmount + mobileAmount)
    ∧ isPaymentValid .mixed 50 30 0 "" 100 = false := by
  constructor
  · have hred : isPaymentValid .mixed cashReceived cardAmount mobileAmount mobileNumber total
        = decide (max 0 (total - (cardAmount + mobileAmount + cashReceived)) = 0) := rfl
    rw [hred, decide_eq_true_eq, max_eq_left_iff]
    constructor
    · intro h; linarith
    · intro h; linarith
  · decide

/-- An inventory record as read by `InventoryManagement` (`currentStock` is
optional in the dynamic shape; the handler reads `currentStock ?? 0`). -/
structure InventoryItem where
  productId : String
  outletId : String := ""
  currentStock : Option Int := none
  minimumStock : Option Int := none
  maximumStock : Option Int := none
deriving DecidableEq

/-- The `type` field sent with a stock adjustment. -/
inductive AdjustmentKind
  | increase
  | decrease
deriving DecidableEq

/-- What `handleStockAdjustment` does before any network call: refuse for a
blank reason, silently return when the product has no inventory record or
the delta is zero, otherwise submit the signed delta with its derived
type. -/
inductive AdjustmentOutcome
  | missingReason
  | itemNotFound
  | noOp
  | submitted (adjustedQuantity : Int) (kind : AdjustmentKind)
deriving DecidableEq

/-- `handleStockAdjustment` of `InventoryManagement`
(`inventory-management.tsx:59`..`91`): `!adjustmentReason.trim()` fails with
the missing-reason error; `quantityDiff = newQuantity - (currentStock ?? 0)`;
`quantityDiff === 0` returns without submitting; otherwise the adjustment is
submitted with `type: quantityDiff > 0 ? 'increase' : 'decrease'`. -/
def handleStockAdjustment (adjustmentReason : String)
    (inventoryItems : List InventoryItem) (productId : String)
    (newQuantity : Int) : AdjustmentOutcome :=
  if jsTrim adjustmentReason = "" then .missingReason
  else
    match inventoryItems.find? (fun item => item.productId == productId) with
    | none => .itemNotFound
    | some currentItem =>
      let quantityDiff := newQuantity - currentItem.currentStock.getD 0
      if quantityDiff = 0 then .noOp
      else .submitted quantityDiff
        (if 0 < quantityDiff then .increase else .decrease)

/-- An inventory record for product `"p1"` holding `s` units. -/
def stockRecord (s : Int) : InventoryItem :=
  { productId := "p1", outletId := "o1", currentStock := some s }

/-- C7: the adjustment handler fails with the missing-reason error exactly
when the reason is blank after trimming; otherwise, for the product's
record, it computes `delta = targetStock − currentStock`, a zero delta is a
no-op that submits nothing, and a non-zero delta is submitted with type
`increase` when positive and `decrease` otherwise.  Concretely,
reconciling 100 → 80 with reason `""` fails, with reason `"recount"` it
submits delta −20 of type `decrease`, and 50 → 50 is a no-op. -/
theorem handleStockAdjustment_spec (adjustmentReason : String)
    (inventoryItems : List InventoryItem) (productId : String)
    (newQuantity : Int) :
    (handleStockAdjustment adjustmentReason inventoryItems productId newQuantity
        = .missingReason ↔ jsTrim adjustmentReason = "")
    ∧ (∀ item, inventoryItems.find? (fun i => i.productId == productId) = some item →
        jsTrim adjustmentReason ≠ "" →
        handleStockAdjustment adjustmentReason inventoryItems productId newQuantity
          = (if newQuantity - item.currentStock.getD 0 = 0 then .noOp
             else .submitted (newQuantity - item.currentStock.getD 0)
               (if 0 < newQuantity - item.currentStock.getD 0
                then .increase else .decrease)))
    ∧ handleStockAdjustment "" [stockRecord 100] "p1" 80 = .missingReason
    ∧ handleStockAdjustment "recount" [stockRecord 100] "p1" 80
        = .submitted (-20) .decrease
    ∧ handleStockAdjustment "recount" [stockRecord 50] "p1" 50 = .noOp := by
  refine ⟨?_, ?_, by decide, by decide, by decide⟩
  · by_cases h : jsTrim adjustmentReason = ""
    · simp [handleStockAdjustment, h]
    · simp only [handleStockAdjustment, if_neg h]
      simp only [h, iff_false]
      cases hfind : inventoryItems.find? (fun i => i.productId == productId) with
      | none => simp
      | some item =>
        simp only
        split
        · simp
        · simp
  · intro item hfind hne
    simp only [handleStockAdjustment, if_neg hne, hfind]

/-- The discriminant of the `SalePackInfo` tagged union. -/
inductive SaleType
  | unit
  | pack
deriving DecidableEq

/-- `SalePackInfo` (`api-unified`), as constructed by `createPackSaleInfo`. -/
structure SalePackInfo where
  saleType : SaleType
  packVariantId : Option String := none
  packQuantity : Int
  unitQuantity : Int
  effectiveUnitCount : Int
deriving DecidableEq

/-- The `else if (saleType === 'unit' && unitQuantity)` branch of
`createPackSaleInfo` followed by the throw: reached whenever the pack
branch's condition is falsy. -/
def unitSaleBranch (saleType : SaleType) (unitQuantity : Option Int) :
    Option SalePackInfo :=
  match saleType, unitQuantity with
  | .unit, some uq =>
      if uq ≠ 0 then
        some { saleType := .unit, packQuantity := 0, unitQuantity := uq,
               effectiveUnitCount := uq }
      else none
  | _, _ => none

/-- `dataTransforms.createPackSaleInfo` (`data-utils.ts:218`..`242`): the
pack branch fires when `saleType === 'pack' && packVariant && packQuantity`
(a zero or absent `packQuantity` is falsy), otherwise the unit branch is
tried, and `none` models the thrown `Error('Invalid pack sale info
parameters')`. -/
def createPackSaleInfo (saleType : SaleType) (packVariant : Option PackVariant)
    (packQuantity unitQuantity : Option Int) : Option SalePackInfo :=
  match saleType, packVariant, packQuantity with
  | .pack, some v, some pq =>
      if pq ≠ 0 then
        some { saleType := .pack, packVariantId := some v.id, packQuantity := pq,
               unitQuantity := 0, effectiveUnitCount := pq * v.packSize }
      else unitSaleBranch saleType unitQuantity
  | _, _, _ => unitSaleBranch saleType unitQuantity

lemma unitSaleBranch_spec (saleType : SaleType) (unitQuantity : Option Int)
    (info : SalePackInfo) (h : unitSaleBranch saleType unitQuantity = some info) :
    saleType = .unit ∧ ∃ uq, unitQuantity = some uq ∧ uq ≠ 0
      ∧ info = { saleType := .unit, packQuantity := 0, unitQuantity := uq,
                 effectiveUnitCount := uq } := by
  cases saleType with
  | pack => simp [unitSaleBranch] at h
  | unit =>
    cases unitQuantity with
    | none => simp [unitSaleBranch] at h
    | some uq =>
      by_cases huq : uq = 0
      · simp [unitSaleBranch, huq] at h
      · refine ⟨rfl, uq, rfl, huq, ?_⟩
        simp [unitSaleBranch, huq] at h
        exact h.symm

/-- C8: every `SalePackInfo` that `createPackSaleInfo` constructs (rather
than throwing) satisfies the exclusivity invariant: exactly one of
`unitQuantity`/`packQuantity` is non-zero, matching the `saleType`
discriminant, and `effectiveUnitCount` is `unitQuantity` for a unit sale
and `packQuantity × packSize` of the chosen variant for a pack sale. -/
theorem createPackSaleInfo_exclusive (saleType : SaleType)
    (packVariant : Option PackVariant) (packQuantity unitQuantity : Option Int)
    (info : SalePackInfo)
    (h : createPackSaleInfo saleType packVariant packQuantity unitQuantity = some info) :
    ((info.unitQuantity ≠ 0 ∧ info.packQuantity = 0)
      ∨ (info.packQuantity ≠ 0 ∧ info.unitQuantity = 0))
    ∧ (info.saleType = .unit → info.packQuantity = 0
        ∧ info.effectiveUnitCount = info.unitQuantity)
    ∧ (info.saleType = .pack → info.unitQuantity = 0
        ∧ ∃ v, packVariant = some v
          ∧ info.effectiveUnitCount = info.packQuantity * v.packSize) := by
  cases saleType with
  | unit =>
    obtain ⟨-, uq, -, huq, rfl⟩ := unitSaleBranch_spec _ _ _ h
    refine ⟨Or.inl ⟨huq, rfl⟩, fun _ => ⟨rfl, rfl⟩, fun hpk => by simp at hpk⟩
  | pack =>
    cases packVariant with
    | none =>
      cases packQuantity with
      | none =>
        obtain ⟨hst, -⟩ := unitSaleBranch_spec SaleType.pack unitQuantity info h
        exact absurd hst (by decide)
      | some pq =>
        obtain ⟨hst, -⟩ := unitSaleBranch_spec SaleType.pack unitQuantity info h
        exact absurd hst (by decide)
    | some v =>
      cases packQuantity with
      | none =>
        obtain ⟨hst, -⟩ := unitSaleBranch_spec SaleType.pack unitQuantity info h
        exact absurd hst (by decide)
      | some pq =>
        by_cases hpq : pq = 0
        · have h' : unitSaleBranch SaleType.pack unitQuantity = some info := by
            subst hpq
            simpa [createPackSaleInfo] using h
          obtain ⟨hst, -⟩ := unitSaleBranch_spec SaleType.pack unitQuantity info h'
          exact absurd hst (by decide)
        · simp only [createPackSaleInfo, ne_eq, hpq, not_false_eq_true, if_true,
            Option.some.injEq] at h
          subst h
          refine ⟨Or.inr ⟨hpq, rfl⟩, fun hu => by simp at hu,
            fun _ => ⟨rfl, v, rfl, rfl⟩⟩

/-- C8 witness: the invariant at the pack sale of 2 × the 3-pack, whose
constructed record is
`{saleType := pack, packVariantId := v3, packQuantity := 2, unitQuantity := 0, effectiveUnitCount := 6}`. -/
theorem createPackSaleInfo_exclusive_witness :
    ((( { saleType := .pack, packVariantId := some "v3", packQuantity := 2,
          unitQuantity := 0, effectiveUnitCount := 6 } : SalePackInfo).unitQuantity ≠ 0
        ∧ ({ saleType := .pack, packVariantId := some "v3", packQuantity := 2,
             unitQuantity := 0, effectiveUnitCount := 6 } : SalePackInfo).packQuantity = 0)
      ∨ (({ saleType := .pack, packVariantId := some "v3", packQuantity := 2,
            unitQuantity := 0, effectiveUnitCount := 6 } : SalePackInfo).packQuantity ≠ 0
        ∧ ({ saleType := .pack, packVariantId := some "v3", packQuantity := 2,
             unitQuantity := 0, effectiveUnitCount := 6 } : SalePackInfo).unitQuantity = 0))
    ∧ (({ saleType := .pack, packVariantId := some "v3", packQuantity := 2,
          unitQuantity := 0, effectiveUnitCount := 6 } : SalePackInfo).saleType = .unit →
        ({ saleType := .pack, packVariantId := some "v3", packQuantity := 2,
           unitQuantity := 0, effectiveUnitCount := 6 } : SalePackInfo).packQuantity = 0
        ∧ ({ saleType := .pack, packVariantId := some "v3", packQuantity := 2,
             unitQuantity := 0, effectiveUnitCount := 6 } : SalePackInfo).effectiveUnitCount
          = ({ saleType := .pack, packVariantId := some "v3", packQuantity := 2,
               unitQuantity := 0, effectiveUnitCount := 6 } : SalePackInfo).unitQuantity)
    ∧ (({ saleType := .pack, packVariantId := some "v3", packQuantity := 2,
          unitQuantity := 0, effectiveUnitCount := 6 } : SalePackInfo).saleType = .pack →
        ({ saleType := .pack, packVariantId := some "v3", packQuantity := 2,
           unitQuantity := 0, effectiveUnitCount := 6 } : SalePackInfo).unitQuantity = 0
        ∧ ∃ v, some threePackNine = some v
          ∧ ({ saleType := .pack, packVariantId := some "v3", packQuantity := 2,
               unitQuantity := 0, effectiveUnitCount := 6 } : SalePackInfo).effectiveUnitCount
            = ({ saleType := .pack, packVariantId := some "v3", packQuantity := 2,
                 unitQuantity := 0, effectiveUnitCount := 6 } : SalePackInfo).packQuantity
              * v.packSize) :=
  createPackSaleInfo_exclusive .pack (some threePackNine) (some 2) none
    { saleType := .pack, packVariantId := some "v3", packQuantity := 2,
      unitQuantity := 0, effectiveUnitCount := 6 } (by decide)

/-- The outcome of the awaited `createSale.mutate(saleData)` call: either a
created sale with its id, or a thrown error. -/
inductive SaleResult
  | ok (saleId : String)
  | err
deriving DecidableEq

/-- The externally observable actions of `handlePayment` in `PaymentPanel`
(`part_008`): submitting the sale to the external API, and invoking
`onPaymentComplete` (which in `CashierContent` is `clearCart`). -/
inductive PayEvent
  | submitSale
  | completePayment
deriving DecidableEq

/-- `handlePayment` of `PaymentPanel`, as the ordered list of its
externally observable actions for a given submission outcome: without an
outlet id it returns before doing anything; otherwise it submits, and
`onPaymentComplete` runs only on the success path (the `catch` block
neither completes nor clears).  The success screen's button also calls
`onPaymentComplete`, still strictly after the successful submission. -/
def handlePayment (outletId : Option String) (saleResult : SaleResult) :
    List PayEvent :=
  match outletId with
  | none => []
  | some _ =>
    match saleResult with
    | .ok _ => [.submitSale, .completePayment]
    | .err => [.submitSale]

/-- The cart after the events of a payment attempt: `completePayment` runs
`clearCart` (`CashierContent` sets the items to `[]`); submitting does not
touch the cart. -/
def cartAfterEvents (cart : List CartItem) (events : List PayEvent) :
    List CartItem :=
  events.foldl (fun c e =>
    match e with
    | .completePayment => clearCart
    | .submitSale => c) cart

/-- C9: along every path of `handlePayment`, `onPaymentComplete` — the only
action that clears the cart — occurs only when the submission succeeded,
and then strictly after the `submitSale` action; a failed submission leaves
the cart exactly as it was, available for retry. -/
theorem handlePayment_clears_only_after_success (outletId : Option String)
    (saleResult : SaleResult) (cart : List CartItem) :
    (PayEvent.completePayment ∈ handlePayment outletId saleResult
      → ∃ saleId, saleResult = .ok saleId)
    ∧ (saleResult = .err
      → cartAfterEvents cart (handlePayment outletId saleResult) = cart)
    ∧ (∀ saleId, saleResult = .ok saleId → outletId ≠ none
      → handlePayment outletId saleResult = [.submitSale, .completePayment]) := by
  cases outletId with
  | none =>
    refine ⟨fun hmem => absurd hmem (by simp [handlePayment]), fun _ => rfl,
      fun saleId hok hno => absurd rfl hno⟩
  | some o =>
    cases saleResult with
    | ok saleId =>
      refine ⟨fun _ => ⟨saleId, rfl⟩, fun herr => by simp at herr,
        fun s hok hno => rfl⟩
    | err =>
      refine ⟨fun hmem => absurd hmem (by simp [handlePayment]), fun _ => rfl,
        fun s hok hno => by simp at hok⟩
